import Mathlib

/-!
Verification development for the `aws-orphans` multi-region orphan-detection
engine (modules `app/regions.py`, `app/scanner.py`, `app/scanner_eips.py`,
`app/scanner_ebs.py`).  The provider listings that the code reads through
`dict.get` are embedded as structures holding exactly the keys the code
accesses, with `Option` for keys that may be absent (Python `dict.get(k, d)`
becomes `Option.getD`).  The per-region network access, which may raise, is
embedded as an environment `String → Except String …` mapping a region to
either its materialized listings or the textual description of the raised
exception (`str(e)`); the orchestrators are then ordinary total functions over
that environment.
-/

namespace AwsOrphans

/-- `app/regions.py`: the fixed region catalog `REGIONS`. -/
def REGIONS : List String :=
  [ "us-east-1", "us-east-2", "us-west-1", "us-west-2",
    "ap-southeast-5", "ap-south-1", "ap-northeast-3", "ap-northeast-2",
    "ap-southeast-1", "ap-southeast-2", "ap-northeast-1",
    "ca-central-1", "ca-west-1",
    "eu-central-1", "eu-west-1", "eu-west-2", "eu-west-3", "eu-north-1",
    "me-south-1", "me-central-1",
    "sa-east-1" ]

/-- `app/regions.py`: `get_regions(subset)`.  `None` returns a copy of the
catalog; a list keeps, in order, exactly its elements that belong to the
catalog. -/
def get_regions (subset : Option (List String)) : List String :=
  match subset with
  | none => REGIONS
  | some l => l.filter (fun r => decide (r ∈ REGIONS))

/-- A security-group record as the scanner reads it: the four keys accessed
by `find_orphaned_security_groups` (`GroupId`, `GroupName`, `Description`
via `get(_, "")`, `VpcId` via `get(_)`). -/
structure SecurityGroup where
  GroupId : Option String
  GroupName : Option String
  Description : Option String
  VpcId : Option String
deriving DecidableEq, Repr

/-- One entry of a network interface's `Groups` list; the scanner reads its
`GroupId` with default `""`. -/
structure EniGroupRef where
  GroupId : Option String
deriving DecidableEq, Repr

/-- A network-interface record; the scanner reads only its `Groups` list. -/
structure NetworkInterface where
  Groups : List EniGroupRef
deriving DecidableEq, Repr

/-- `app/scanner.py`: `security_group_console_url(region, group_id)`. -/
def security_group_console_url (region group_id : String) : String :=
  s!"https://{region}.console.aws.amazon.com/ec2/home?region={region}#SecurityGroup:groupId={group_id}"

/-- `app/scanner.py`: dataclass `OrphanedSGResult`. -/
structure OrphanedSGResult where
  region : String
  group_id : String
  group_name : String
  description : String
  vpc_id : Option String
deriving DecidableEq, Repr

/-- The record `find_orphaned_security_groups` appends for a kept group. -/
def toOrphanedSGResult (region : String) (sg : SecurityGroup) : OrphanedSGResult :=
  { region := region
    group_id := sg.GroupId.getD ""
    group_name := sg.GroupName.getD ""
    description := sg.Description.getD ""
    vpc_id := sg.VpcId }

/-- `app/scanner.py`: dataclass `RegionScanResult` (region, orphaned list,
optional error message). -/
structure RegionScanResult where
  region : String
  orphaned : List OrphanedSGResult
  error : Option String
deriving DecidableEq, Repr

/-- The `used_sg_ids` set of `find_orphaned_security_groups`: every
`group.get("GroupId", "")` over every `eni["Groups"]` of every network
interface (membership is all that is consulted, so a list stands for the
Python set). -/
def usedSgIds (network_interfaces : List NetworkInterface) : List String :=
  (network_interfaces.map (fun eni => eni.Groups.map (fun g => g.GroupId.getD ""))).flatten

/-- `app/scanner.py`: `find_orphaned_security_groups`.  Keeps, in listing
order, every group whose id is not in `used_sg_ids`, skipping (when
`exclude_default_sg`) groups named `"default"`. -/
def find_orphaned_security_groups (security_groups : List SecurityGroup)
    (network_interfaces : List NetworkInterface) (region : String)
    (exclude_default_sg : Bool) : List OrphanedSGResult :=
  let used := usedSgIds network_interfaces
  security_groups.filterMap (fun sg =>
    if sg.GroupId.getD "" ∈ used then none
    else if exclude_default_sg && (sg.GroupName.getD "" == "default") then none
    else some (toOrphanedSGResult region sg))

/-- The per-region inventory access of the security-group scanner: a region
either yields its two materialized listings or raises, carrying `str(e)`. -/
def SgEnv : Type := String → Except String (List SecurityGroup × List NetworkInterface)

/-- `app/scanner.py`: `scan_region_for_orphaned_sgs`.  Runs the inventory
and the reconciler; any exception becomes a `RegionScanResult` with `error`
set and the default empty `orphaned` list. -/
def scan_region_for_orphaned_sgs (env : SgEnv) (region : String)
    (exclude_default_sg : Bool) : RegionScanResult :=
  match env region with
  | .ok (sgs, enis) =>
      { region := region
        orphaned := find_orphaned_security_groups sgs enis region exclude_default_sg
        error := none }
  | .error e => { region := region, orphaned := [], error := some e }

/-- The two lines `regions = regions or REGIONS; regions = get_regions(regions)`
shared by the three fleet orchestrators: Python `or` replaces both `None`
and the (falsy) empty list by the catalog before filtering. -/
def filtered_catalog (regions : Option (List String)) : List String :=
  get_regions (some (match regions with
    | none => REGIONS
    | some [] => REGIONS
    | some l => l))

/-- `app/scanner.py`: `scan_all_regions`.  One `RegionScanResult` per
filtered region, in order. -/
def scan_all_regions (env : SgEnv) (regions : Option (List String))
    (exclude_default_sg : Bool) : List RegionScanResult :=
  (filtered_catalog regions).map
    (fun region => scan_region_for_orphaned_sgs env region exclude_default_sg)

/-- An elastic-IP address record as `find_orphaned_elastic_ips` reads it:
`AssociationId` (truthiness-tested), `AllocationId`, `PublicIp` (default
`""`), `Domain` (default `"vpc"`). -/
structure Address where
  AssociationId : Option String
  AllocationId : Option String
  PublicIp : Option String
  Domain : Option String
deriving DecidableEq, Repr

/-- `app/scanner_eips.py`: `elastic_ip_console_url(region, allocation_id)`. -/
def elastic_ip_console_url (region allocation_id : String) : String :=
  s!"https://{region}.console.aws.amazon.com/ec2/home?region={region}#ElasticIpDetails:AllocationId={allocation_id}"

/-- `app/scanner_eips.py`: dataclass `OrphanedEIPResult`. -/
structure OrphanedEIPResult where
  region : String
  allocation_id : String
  public_ip : String
  domain : String
deriving DecidableEq, Repr

/-- The record `find_orphaned_elastic_ips` appends for a kept address. -/
def toOrphanedEIPResult (region : String) (a : Address) : OrphanedEIPResult :=
  { region := region
    allocation_id := a.AllocationId.getD ""
    public_ip := a.PublicIp.getD ""
    domain := a.Domain.getD "vpc" }

/-- Python truthiness of `a.get("AssociationId")`: truthy exactly when the
key is present with a non-empty string. -/
def hasAssociation (a : Address) : Bool :=
  match a.AssociationId with
  | none => false
  | some s => s != ""

/-- `app/scanner_eips.py`: dataclass `RegionEIPScanResult`. -/
structure RegionEIPScanResult where
  region : String
  orphaned : List OrphanedEIPResult
  error : Option String
deriving DecidableEq, Repr

/-- `app/scanner_eips.py`: `find_orphaned_elastic_ips`.  Keeps, in listing
order, every address whose `AssociationId` is absent or empty (the `if
a.get("AssociationId"): continue` guard). -/
def find_orphaned_elastic_ips (addresses : List Address) (region : String) :
    List OrphanedEIPResult :=
  addresses.filterMap (fun a =>
    if hasAssociation a then none
    else some (toOrphanedEIPResult region a))

/-- Per-region inventory access of the elastic-IP scanner. -/
def EipEnv : Type := String → Except String (List Address)

/-- `app/scanner_eips.py`: `scan_region_for_orphaned_eips`. -/
def scan_region_for_orphaned_eips (env : EipEnv) (region : String) :
    RegionEIPScanResult :=
  match env region with
  | .ok addrs =>
      { region := region
        orphaned := find_orphaned_elastic_ips addrs region
        error := none }
  | .error e => { region := region, orphaned := [], error := some e }

/-- `app/scanner_eips.py`: `scan_all_regions_eips`. -/
def scan_all_regions_eips (env : EipEnv) (regions : Option (List String)) :
    List RegionEIPScanResult :=
  (filtered_catalog regions).map (fun region => scan_region_for_orphaned_eips env region)

/-- A `datetime.datetime` value as far as the volume scanner consumes one:
the `isoformat()` components.  boto3 parses `CreateTime` into a
timezone-aware datetime (UTC offset, typically `+00:00`), possibly with a
non-zero microsecond field; `offsetMinutes = none` models a naive datetime,
`some o` an aware one with a UTC offset of `o` minutes.  The scanner only
ever calls `isoformat()` on the value. -/
structure Datetime where
  year : Nat
  month : Nat
  day : Nat
  hour : Nat
  minute : Nat
  second : Nat
  microsecond : Nat
  offsetMinutes : Option Int
deriving DecidableEq, Repr

/-- Fuel-structured digit accumulator: with enough fuel, the decimal digit
characters of `n`, most significant first. -/
def natDigitsAux : Nat → Nat → List Char
  | 0, _ => []
  | fuel + 1, n =>
    if n < 10 then [Nat.digitChar n]
    else natDigitsAux fuel (n / 10) ++ [Nat.digitChar (n % 10)]

/-- Decimal digit characters of a natural number, most significant first
(the rendering `str`/`%d` uses); `n + 1` fuel always suffices. -/
def natDigits (n : Nat) : List Char := natDigitsAux (n + 1) n

/-- Zero-pad a number's digits on the left to the given width (`%0wd`). -/
def padNat (width n : Nat) : List Char :=
  List.replicate (width - (natDigits n).length) '0' ++ natDigits n

/-- The fractional-second part of `datetime.isoformat()`: `.ffffff` (six
zero-padded digits) exactly when the microsecond field is non-zero. -/
def fracChars (us : Nat) : List Char :=
  if us = 0 then [] else '.' :: padNat 6 us

/-- The UTC-offset part of `datetime.isoformat()`: empty for a naive
datetime, otherwise a sign followed by zero-padded `HH:MM` of the offset
(UTC is `+00:00`). -/
def offsetChars (off : Option Int) : List Char :=
  match off with
  | none => []
  | some o =>
      (if 0 ≤ o then '+' else '-') ::
        (padNat 2 (o.natAbs / 60) ++ ':' :: padNat 2 (o.natAbs % 60))

/-- `datetime.isoformat()`: `YYYY-MM-DDTHH:MM:SS`, then `.ffffff` when the
microsecond field is non-zero, then the `±HH:MM` UTC offset when the
datetime is timezone-aware. -/
def Datetime.isoformat (d : Datetime) : String :=
  String.mk (padNat 4 d.year ++ '-' :: padNat 2 d.month ++ '-' :: padNat 2 d.day ++
    'T' :: padNat 2 d.hour ++ ':' :: padNat 2 d.minute ++ ':' :: padNat 2 d.second ++
    fracChars d.microsecond ++ offsetChars d.offsetMinutes)

/-- The representations a provider `CreateTime` value can take at the
scanner: a parsed datetime, some other raw value (seen through `str`), or
absent. -/
inductive CreateTimeVal where
  | dt (d : Datetime)
  | raw (s : String)
  | absent
deriving DecidableEq, Repr

/-- The coercion in `find_unattached_ebs_volumes`: `isoformat()` for a
datetime, otherwise `str(create_time or "")` (so absent — and a falsy raw
value, i.e. the empty string — becomes `""`, and any other raw value its
`str`). -/
def coerceCreateTime (ct : CreateTimeVal) : String :=
  match ct with
  | .dt d => d.isoformat
  | .raw s => s
  | .absent => ""

/-- A volume record as `find_unattached_ebs_volumes` reads it. -/
structure Volume where
  VolumeId : Option String
  Size : Option Int
  VolumeType : Option String
  AvailabilityZone : Option String
  CreateTime : CreateTimeVal
deriving DecidableEq, Repr

/-- `app/scanner_ebs.py`: `ebs_volume_console_url(region, volume_id)`. -/
def ebs_volume_console_url (region volume_id : String) : String :=
  s!"https://{region}.console.aws.amazon.com/ec2/v2/home?region={region}#VolumeDetails:VolumeId={volume_id}"

/-- `app/scanner_ebs.py`: dataclass `UnattachedEBSResult`. -/
structure UnattachedEBSResult where
  region : String
  volume_id : String
  size_gb : Int
  volume_type : String
  availability_zone : String
  create_time : String
deriving DecidableEq, Repr

/-- The record `find_unattached_ebs_volumes` appends for each volume. -/
def toUnattachedEBSResult (region : String) (v : Volume) : UnattachedEBSResult :=
  { region := region
    volume_id := v.VolumeId.getD ""
    size_gb := v.Size.getD 0
    volume_type := v.VolumeType.getD ""
    availability_zone := v.AvailabilityZone.getD ""
    create_time := coerceCreateTime v.CreateTime }

/-- `app/scanner_ebs.py`: dataclass `RegionEBSScanResult`. -/
structure RegionEBSScanResult where
  region : String
  orphaned : List UnattachedEBSResult
  error : Option String
deriving DecidableEq, Repr

/-- `app/scanner_ebs.py`: `find_unattached_ebs_volumes`.  The listing is
already filtered server-side to `status=available`; every record is mapped,
in order, to an output record. -/
def find_unattached_ebs_volumes (volumes : List Volume) (region : String) :
    List UnattachedEBSResult :=
  volumes.map (fun v => toUnattachedEBSResult region v)

/-- Per-region inventory access of the volume scanner (the
`status=available`-filtered listing). -/
def EbsEnv : Type := String → Except String (List Volume)

/-- `app/scanner_ebs.py`: `scan_region_for_unattached_ebs`. -/
def scan_region_for_unattached_ebs (env : EbsEnv) (region : String) :
    RegionEBSScanResult :=
  match env region with
  | .ok vols =>
      { region := region
        orphaned := find_unattached_ebs_volumes vols region
        error := none }
  | .error e => { region := region, orphaned := [], error := some e }

/-- `app/scanner_ebs.py`: `scan_all_regions_ebs`. -/
def scan_all_regions_ebs (env : EbsEnv) (regions : Option (List String)) :
    List RegionEBSScanResult :=
  (filtered_catalog regions).map (fun region => scan_region_for_unattached_ebs env region)

/-- A `±HH:MM` UTC-offset tail: a sign, two digits, a colon, two digits. -/
def isOffsetTail (l : List Char) : Bool :=
  match l with
  | [sg, h1, h2, c, m1, m2] =>
      (sg == '+' || sg == '-') && h1.isDigit && h2.isDigit && c == ':' &&
      m1.isDigit && m2.isDigit
  | _ => false

/-- An optional UTC-offset tail: empty, or a `±HH:MM` offset. -/
def isOptOffset (l : List Char) : Bool := l.isEmpty || isOffsetTail l

/-- What may follow the 19-character date-time core in canonical ISO-8601:
optionally `.ffffff` (six fraction digits), then optionally `±HH:MM`. -/
def isTimeSuffix (l : List Char) : Bool :=
  match l with
  | '.' :: f1 :: f2 :: f3 :: f4 :: f5 :: f6 :: rest =>
      f1.isDigit && f2.isDigit && f3.isDigit && f4.isDigit && f5.isDigit &&
      f6.isDigit && isOptOffset rest
  | l => isOptOffset l

/-- The canonical ISO-8601 date-time shapes `datetime.isoformat()` emits:
`YYYY-MM-DDTHH:MM:SS`, optionally followed by six fractional-second digits
and/or a `±HH:MM` UTC offset. -/
def isCanonicalISO8601 (s : String) : Bool :=
  match s.toList with
  | y1 :: y2 :: y3 :: y4 :: c1 :: m1 :: m2 :: c2 :: d1 :: d2 :: t :: h1 :: h2 ::
      c3 :: n1 :: n2 :: c4 :: s1 :: s2 :: rest =>
      y1.isDigit && y2.isDigit && y3.isDigit && y4.isDigit && c1 == '-' &&
      m1.isDigit && m2.isDigit && c2 == '-' && d1.isDigit && d2.isDigit &&
      t == 'T' && h1.isDigit && h2.isDigit && c3 == ':' && n1.isDigit &&
      n2.isDigit && c4 == ':' && s1.isDigit && s2.isDigit && isTimeSuffix rest
  | _ => false

/-- A security-group inventory environment where exactly the region
`"us-east-1"` raises, with exception text `"connect timeout"`, and every
other region has empty listings. -/
def sgEnvOneFail : SgEnv := fun r =>
  if r = "us-east-1" then .error "connect timeout" else .ok ([], [])

/-- A security-group inventory environment where exactly `"us-east-1"`
raises an exception whose textual description is empty (Python
`str(Exception())` is `""`). -/
def sgEnvEmptyMsg : SgEnv := fun r =>
  if r = "us-east-1" then .error "" else .ok ([], [])

/- ------------------------------------------------------------------ -/
/- Helper lemmas -/

theorem toString_string (s : String) : toString s = s := rfl

theorem count_filter_true {α : Type} [DecidableEq α] (p : α → Bool) (l : List α) (b : α)
    (hb : p b = true) : (l.filter p).count b = l.count b := by
  induction l with
  | nil => rfl
  | cons x xs ih =>
    by_cases hx : p x = true
    · simp [List.filter_cons, hx, List.count_cons, ih]
    · have hbx : ¬ (x = b) := fun he => hx (he ▸ hb)
      simp [List.filter_cons, hx, List.count_cons, ih, hbx]

theorem filterMap_if_guard {α β : Type} (p : α → Bool) (g : α → β) (l : List α) :
    l.filterMap (fun a => if p a then none else some (g a)) =
      (l.filter (fun a => !p a)).map g := by
  induction l with
  | nil => rfl
  | cons x xs ih =>
    by_cases h : p x = true
    · simp [h, ih]
    · simp [h, ih]

theorem scan_region_sg_region (env : SgEnv) (region : String) (exclude : Bool) :
    (scan_region_for_orphaned_sgs env region exclude).region = region := by
  cases h : env region <;> simp [scan_region_for_orphaned_sgs, h]

theorem scan_region_eip_region (env : EipEnv) (region : String) :
    (scan_region_for_orphaned_eips env region).region = region := by
  cases h : env region <;> simp [scan_region_for_orphaned_eips, h]

theorem scan_region_ebs_region (env : EbsEnv) (region : String) :
    (scan_region_for_unattached_ebs env region).region = region := by
  cases h : env region <;> simp [scan_region_for_unattached_ebs, h]

/- ------------------------------------------------------------------ -/
/- Claim theorems -/

/-- C6: `get_regions` with an absent subset returns the full 21-element
catalog; with a subset `S` it returns a sublist of `S` (so `S`'s relative
order is preserved), every returned element belongs to both the catalog
and `S`, and occurrence counts of catalog members are passed through
unchanged (duplicates survive). -/
theorem get_regions_spec (S : List String) (r x : String) (hr : r ∈ REGIONS)
    (hx : x ∈ get_regions (some S)) :
    get_regions none = REGIONS ∧ REGIONS.length = 21 ∧
    (get_regions (some S)).Sublist S ∧ (x ∈ REGIONS ∧ x ∈ S) ∧
    (get_regions (some S)).count r = S.count r := by
  refine ⟨rfl, rfl, List.filter_sublist S, ?_, ?_⟩
  · simp only [get_regions, List.mem_filter, decide_eq_true_eq] at hx
    exact ⟨hx.2, hx.1⟩
  · exact count_filter_true _ S r (by simpa using hr)

/-- Witness for C6 at a subset holding one unknown code and a duplicate. -/
theorem get_regions_spec_witness :
    get_regions none = REGIONS ∧ REGIONS.length = 21 ∧
    (get_regions (some ["us-east-1", "nowhere", "us-east-1"])).Sublist
      ["us-east-1", "nowhere", "us-east-1"] ∧
    ("us-east-1" ∈ REGIONS ∧ "us-east-1" ∈ ["us-east-1", "nowhere", "us-east-1"]) ∧
    (get_regions (some ["us-east-1", "nowhere", "us-east-1"])).count "us-east-1" =
      (["us-east-1", "nowhere", "us-east-1"] : List String).count "us-east-1" :=
  get_regions_spec ["us-east-1", "nowhere", "us-east-1"] "us-east-1" "us-east-1"
    (by decide) (by decide)

/-- C7: the three console-URL builders produce, byte for byte, the
documented templates with the region and primary identifier substituted. -/
theorem console_urls_byte_exact (region group_id allocation_id volume_id : String) :
    security_group_console_url region group_id =
      "https://" ++ region ++ ".console.aws.amazon.com/ec2/home?region=" ++ region ++
        "#SecurityGroup:groupId=" ++ group_id ∧
    elastic_ip_console_url region allocation_id =
      "https://" ++ region ++ ".console.aws.amazon.com/ec2/home?region=" ++ region ++
        "#ElasticIpDetails:AllocationId=" ++ allocation_id ∧
    ebs_volume_console_url region volume_id =
      "https://" ++ region ++ ".console.aws.amazon.com/ec2/v2/home?region=" ++ region ++
        "#VolumeDetails:VolumeId=" ++ volume_id := by
  refine ⟨?_, ?_, ?_⟩ <;>
    simp [security_group_console_url, elastic_ip_console_url, ebs_volume_console_url,
      toString_string, String.append_empty]

/-- C8: every outcome of the per-region security-group orchestrator is
either a success (no error recorded) or a failure carrying an error message
and an empty orphan list — never both. -/
theorem region_outcome_success_or_failure (env : SgEnv) (region : String) (exclude : Bool) :
    (scan_region_for_orphaned_sgs env region exclude).error = none ∨
    (∃ msg, (scan_region_for_orphaned_sgs env region exclude).error = some msg ∧
      (scan_region_for_orphaned_sgs env region exclude).orphaned = []) := by
  cases h : env region with
  | ok d => exact Or.inl (by simp [scan_region_for_orphaned_sgs, h])
  | error e => exact Or.inr ⟨e, by simp [scan_region_for_orphaned_sgs, h]⟩

/-- C9: the three reconcilers are pure functions of their inputs; running
any of them twice on identical inputs yields the identical ordered output. -/
theorem reconcilers_deterministic (G : List SecurityGroup) (N : List NetworkInterface)
    (A : List Address) (V : List Volume) (region : String) (exclude : Bool) :
    find_orphaned_security_groups G N region exclude =
      find_orphaned_security_groups G N region exclude ∧
    find_orphaned_elastic_ips A region = find_orphaned_elastic_ips A region ∧
    find_unattached_ebs_volumes V region = find_unattached_ebs_volumes V region :=
  ⟨rfl, rfl, rfl⟩

/-- C5: each fleet scan returns exactly one outcome per region of the
filtered catalog, and the i-th outcome's region is the i-th element of the
filtered catalog. -/
theorem fleet_outcomes_match_filtered_catalog (sgEnv : SgEnv) (eipEnv : EipEnv)
    (ebsEnv : EbsEnv) (regions : Option (List String)) (exclude : Bool) :
    (scan_all_regions sgEnv regions exclude).length = (filtered_catalog regions).length ∧
    (scan_all_regions sgEnv regions exclude).map RegionScanResult.region =
      filtered_catalog regions ∧
    (scan_all_regions_eips eipEnv regions).map RegionEIPScanResult.region =
      filtered_catalog regions ∧
    (scan_all_regions_ebs ebsEnv regions).map RegionEBSScanResult.region =
      filtered_catalog regions := by
  refine ⟨by simp [scan_all_regions], ?_, ?_, ?_⟩
  · rw [scan_all_regions, List.map_map]
    have h : ∀ a ∈ filtered_catalog regions,
        (RegionScanResult.region ∘ fun region =>
          scan_region_for_orphaned_sgs sgEnv region exclude) a = id a := by
      intro a _; simp [scan_region_sg_region]
    rw [List.map_congr_left h, List.map_id]
  · rw [scan_all_regions_eips, List.map_map]
    have h : ∀ a ∈ filtered_catalog regions,
        (RegionEIPScanResult.region ∘ fun region =>
          scan_region_for_orphaned_eips eipEnv region) a = id a := by
      intro a _; simp [scan_region_eip_region]
    rw [List.map_congr_left h, List.map_id]
  · rw [scan_all_regions_ebs, List.map_map]
    have h : ∀ a ∈ filtered_catalog regions,
        (RegionEBSScanResult.region ∘ fun region =>
          scan_region_for_unattached_ebs ebsEnv region) a = id a := by
      intro a _; simp [scan_region_ebs_region]
    rw [List.map_congr_left h, List.map_id]

/-- C10: passing the empty region list to any of the three fleet scans is
identical to passing no list at all — the full 21-region catalog is
scanned. -/
theorem empty_subset_scans_full_catalog (sgEnv : SgEnv) (eipEnv : EipEnv)
    (ebsEnv : EbsEnv) (exclude : Bool) :
    scan_all_regions sgEnv (some []) exclude = scan_all_regions sgEnv none exclude ∧
    (scan_all_regions sgEnv (some []) exclude).length = 21 ∧
    scan_all_regions_eips eipEnv (some []) = scan_all_regions_eips eipEnv none ∧
    (scan_all_regions_eips eipEnv (some [])).length = 21 ∧
    scan_all_regions_ebs ebsEnv (some []) = scan_all_regions_ebs ebsEnv none ∧
    (scan_all_regions_ebs ebsEnv (some [])).length = 21 := by
  have hlen : (filtered_catalog (some [])).length = 21 := by decide
  refine ⟨rfl, ?_, rfl, ?_, rfl, ?_⟩ <;>
    simp [scan_all_regions, scan_all_regions_eips, scan_all_regions_ebs, hlen]

theorem mem_find_orphaned_sgs (G : List SecurityGroup) (N : List NetworkInterface)
    (region : String) (exclude : Bool) (r : OrphanedSGResult) :
    r ∈ find_orphaned_security_groups G N region exclude ↔
      ∃ sg, sg ∈ G ∧ sg.GroupId.getD "" ∉ usedSgIds N ∧
        ¬(exclude = true ∧ sg.GroupName.getD "" = "default") ∧
        r = toOrphanedSGResult region sg := by
  simp only [find_orphaned_security_groups, List.mem_filterMap]
  constructor
  · rintro ⟨sg, hsg, hf⟩
    by_cases h1 : sg.GroupId.getD "" ∈ usedSgIds N
    · rw [if_pos h1] at hf; cases hf
    · rw [if_neg h1] at hf
      by_cases h2 : (exclude && (sg.GroupName.getD "" == "default")) = true
      · rw [if_pos h2] at hf; cases hf
      · rw [if_neg h2] at hf
        have h2' : ¬(exclude = true ∧ sg.GroupName.getD "" = "default") := by
          simpa [Bool.and_eq_true, beq_iff_eq] using h2
        exact ⟨sg, hsg, h1, h2', (Option.some.inj hf).symm⟩
  · rintro ⟨sg, hsg, h1, h2, rfl⟩
    refine ⟨sg, hsg, ?_⟩
    rw [if_neg h1, if_neg ?_]
    simpa [Bool.and_eq_true, beq_iff_eq] using h2

theorem mem_usedSgIds (N : List NetworkInterface) (s : String) :
    s ∈ usedSgIds N ↔ ∃ eni ∈ N, ∃ gr ∈ eni.Groups, gr.GroupId.getD "" = s := by
  simp only [usedSgIds, List.mem_flatten, List.mem_map]
  constructor
  · rintro ⟨l, ⟨eni, heni, rfl⟩, hs⟩
    rcases List.mem_map.mp hs with ⟨gr, hgr, rfl⟩
    exact ⟨eni, heni, gr, hgr, rfl⟩
  · rintro ⟨eni, heni, gr, hgr, rfl⟩
    exact ⟨_, ⟨eni, heni, rfl⟩, List.mem_map_of_mem _ hgr⟩

/-- C1: a group `g` of the listing appears in the orphan output iff its
identifier is outside the union of the attached-group identifier lists of
all network interfaces (`usedSgIds`, characterized below) and, when the
exclude-default flag is set, its name is not `"default"`; an empty group
listing yields empty output (and an empty interface listing makes
`usedSgIds` empty, so every non-default group is orphaned). -/
theorem sg_orphan_membership_iff (G : List SecurityGroup) (N : List NetworkInterface)
    (region : String) (exclude : Bool) (g : SecurityGroup) (hg : g ∈ G) :
    (toOrphanedSGResult region g ∈ find_orphaned_security_groups G N region exclude ↔
      (g.GroupId.getD "" ∉ usedSgIds N ∧ (exclude = true → g.GroupName.getD "" ≠ "default"))) ∧
    (∀ s, s ∈ usedSgIds N ↔ ∃ eni ∈ N, ∃ gr ∈ eni.Groups, gr.GroupId.getD "" = s) ∧
    usedSgIds [] = [] ∧
    find_orphaned_security_groups [] N region exclude = [] := by
  refine ⟨?_, fun s => mem_usedSgIds N s, rfl, rfl⟩
  rw [mem_find_orphaned_sgs]
  constructor
  · rintro ⟨sg, hsg, h1, h2, heq⟩
    have hc : sg.GroupId.getD "" = g.GroupId.getD "" ∧
        sg.GroupName.getD "" = g.GroupName.getD "" := by
      simp only [toOrphanedSGResult, OrphanedSGResult.mk.injEq] at heq
      exact ⟨heq.2.1.symm, heq.2.2.1.symm⟩
    refine ⟨hc.1 ▸ h1, fun he hn => h2 ⟨he, ?_⟩⟩
    rw [hc.2, hn]
  · rintro ⟨h1, h2⟩
    exact ⟨g, hg, h1, fun h => h2 h.1 h.2, rfl⟩

/-- Witness for C1: a single non-default group, no network interfaces. -/
theorem sg_orphan_membership_iff_witness :
    (toOrphanedSGResult "us-east-1"
        { GroupId := some "sg-2", GroupName := some "web",
          Description := some "web sg", VpcId := none } ∈
      find_orphaned_security_groups
        [ { GroupId := some "sg-2", GroupName := some "web",
            Description := some "web sg", VpcId := none } ] [] "us-east-1" true ↔
      ((SecurityGroup.mk (some "sg-2") (some "web") (some "web sg") none).GroupId.getD ""
          ∉ usedSgIds [] ∧
        (true = true →
          (SecurityGroup.mk (some "sg-2") (some "web") (some "web sg")
            none).GroupName.getD "" ≠ "default"))) ∧
    (∀ s, s ∈ usedSgIds [] ↔
      ∃ eni ∈ ([] : List NetworkInterface), ∃ gr ∈ eni.Groups, gr.GroupId.getD "" = s) ∧
    usedSgIds [] = [] ∧
    find_orphaned_security_groups [] [] "us-east-1" true = [] :=
  sg_orphan_membership_iff
    [ { GroupId := some "sg-2", GroupName := some "web",
        Description := some "web sg", VpcId := none } ] [] "us-east-1" true
    { GroupId := some "sg-2", GroupName := some "web",
      Description := some "web sg", VpcId := none } (by decide)

/-- C3: the elastic-IP reconciler keeps, in order, exactly the addresses
whose association identifier fails Python truthiness, i.e. is absent or the
empty string; in particular `AssociationId = ""` is classified orphaned and
`AssociationId = "eipassoc-1"` is excluded. -/
theorem eip_orphans_iff_no_association (A : List Address) (region : String) (a : Address) :
    find_orphaned_elastic_ips A region =
      (A.filter (fun x => !hasAssociation x)).map (toOrphanedEIPResult region) ∧
    (hasAssociation a = false ↔ (a.AssociationId = none ∨ a.AssociationId = some "")) ∧
    find_orphaned_elastic_ips
      [ { AssociationId := some "", AllocationId := some "eip-1",
          PublicIp := some "1.2.3.4", Domain := some "vpc" },
        { AssociationId := some "eipassoc-1", AllocationId := some "eip-2",
          PublicIp := some "5.6.7.8", Domain := some "vpc" } ] region =
      [ { region := region, allocation_id := "eip-1", public_ip := "1.2.3.4",
          domain := "vpc" } ] := by
  refine ⟨filterMap_if_guard hasAssociation (toOrphanedEIPResult region) A, ?_, rfl⟩
  cases h : a.AssociationId with
  | none => simp [hasAssociation, h]
  | some s => simp [hasAssociation, h, bne]

/-- C2 (amended): when one region's inventory access raises and every other
region's succeeds, the fleet scan still produces each region's complete
per-region outcome; the failing region's outcome carries the exception's
textual description as its error message together with zero records, and
every other region's outcome has no error. -/
theorem scan_all_isolates_single_failure (env : SgEnv) (regions : Option (List String))
    (exclude : Bool) (r0 msg : String) (res : RegionScanResult)
    (hfail : env r0 = .error msg)
    (hok : ∀ r, r ≠ r0 → ∃ d, env r = Except.ok d)
    (hres : res ∈ scan_all_regions env regions exclude) :
    res = scan_region_for_orphaned_sgs env res.region exclude ∧
    ((res.region = r0 ∧ res.error = some msg ∧ res.orphaned = []) ∨
      (res.region ≠ r0 ∧ res.error = none)) := by
  obtain ⟨region, _hregion, rfl⟩ := List.mem_map.mp hres
  have hr : (scan_region_for_orphaned_sgs env region exclude).region = region :=
    scan_region_sg_region env region exclude
  refine ⟨by rw [hr], ?_⟩
  by_cases h : region = r0
  · subst h
    exact Or.inl ⟨hr, by simp [scan_region_for_orphaned_sgs, hfail]⟩
  · obtain ⟨d, hd⟩ := hok region h
    exact Or.inr ⟨by rw [hr]; exact h, by simp [scan_region_for_orphaned_sgs, hd]⟩

/-- Witness for C2's amended theorem: a two-region fleet where
`"us-east-1"` raises with text `"connect timeout"`; the `"us-east-2"`
outcome is complete and error-free. -/
theorem scan_all_isolates_single_failure_witness :
    ({ region := "us-east-2", orphaned := [], error := none } : RegionScanResult) =
      scan_region_for_orphaned_sgs sgEnvOneFail
        ({ region := "us-east-2", orphaned := [], error := none } : RegionScanResult).region
        true ∧
    ((({ region := "us-east-2", orphaned := [], error := none } : RegionScanResult).region =
          "us-east-1" ∧
        ({ region := "us-east-2", orphaned := [], error := none } :
          RegionScanResult).error = some "connect timeout" ∧
        ({ region := "us-east-2", orphaned := [], error := none } :
          RegionScanResult).orphaned = []) ∨
      (({ region := "us-east-2", orphaned := [], error := none } : RegionScanResult).region ≠
          "us-east-1" ∧
        ({ region := "us-east-2", orphaned := [], error := none } :
          RegionScanResult).error = none)) :=
  scan_all_isolates_single_failure sgEnvOneFail (some ["us-east-1", "us-east-2"]) true
    "us-east-1" "connect timeout" { region := "us-east-2", orphaned := [], error := none }
    (by simp [sgEnvOneFail])
    (fun r hr => ⟨([], []), by simp [sgEnvOneFail, hr]⟩)
    (by decide)

/-- C2 as stated is too strong: Python `str(e)` may be empty (e.g.
`Exception()`), and the failing region's outcome then carries an empty
error message — here the fleet scan with exactly one failing region whose
exception text is `""` records `error = some ""`. -/
theorem scan_all_empty_error_message_counterexample :
    scan_all_regions sgEnvEmptyMsg (some ["us-east-1", "us-east-2"]) true =
      [ { region := "us-east-1", orphaned := [], error := some "" },
        { region := "us-east-2", orphaned := [], error := none } ] ∧
    ("" : String).length = 0 := by
  decide

theorem digitChar_isDigit (m : Nat) (hm : m < 10) : (Nat.digitChar m).isDigit = true := by
  have h : ∀ k, k < 10 → (Nat.digitChar k).isDigit = true := by decide
  exact h m hm

theorem natDigitsAux_isDigit (fuel n : Nat) :
    ∀ c ∈ natDigitsAux fuel n, c.isDigit = true := by
  induction fuel generalizing n with
  | zero =>
    intro c hc
    simp [natDigitsAux] at hc
  | succ fuel ih =>
    intro c hc
    by_cases h : n < 10
    · simp only [natDigitsAux, if_pos h, List.mem_singleton] at hc
      subst hc
      exact digitChar_isDigit n h
    · simp only [natDigitsAux, if_neg h] at hc
      rcases List.mem_append.mp hc with h1 | h2
      · exact ih (n / 10) c h1
      · simp only [List.mem_singleton] at h2
        subst h2
        exact digitChar_isDigit (n % 10) (Nat.mod_lt n (by omega))

theorem natDigits_isDigit (n : Nat) : ∀ c ∈ natDigits n, c.isDigit = true :=
  natDigitsAux_isDigit (n + 1) n

theorem natDigitsAux_length_le (fuel k n : Nat) (hf : n < fuel) (hn : n < 10 ^ k)
    (hk : 1 ≤ k) : (natDigitsAux fuel n).length ≤ k := by
  induction fuel generalizing n k with
  | zero => omega
  | succ fuel ih =>
    by_cases h : n < 10
    · simp only [natDigitsAux, if_pos h, List.length_singleton]
      omega
    · simp only [natDigitsAux, if_neg h, List.length_append, List.length_singleton]
      have hk2 : 2 ≤ k := by
        by_contra hc
        have hk1 : k = 1 := by omega
        subst hk1
        simp [pow_one] at hn
        omega
      have hpow : 10 ^ (k - 1) * 10 = 10 ^ k := by
        rw [← pow_succ]
        congr 1
        omega
      have hdiv : n / 10 < 10 ^ (k - 1) := by
        rw [Nat.div_lt_iff_lt_mul (by omega : 0 < 10)]
        omega
      have hf' : n / 10 < fuel := by
        have := Nat.div_lt_self (show 0 < n by omega) (show 1 < 10 by omega)
        omega
      have := ih (k - 1) (n / 10) hf' hdiv (by omega)
      omega

theorem natDigits_length_le (k n : Nat) (hn : n < 10 ^ k) (hk : 1 ≤ k) :
    (natDigits n).length ≤ k :=
  natDigitsAux_length_le (n + 1) k n (by omega) hn hk

theorem padNat_length (w n : Nat) (h : (natDigits n).length ≤ w) :
    (padNat w n).length = w := by
  simp [padNat, List.length_append, List.length_replicate]
  omega

theorem padNat_isDigit (w n : Nat) : ∀ c ∈ padNat w n, c.isDigit = true := by
  intro c hc
  rcases List.mem_append.mp hc with h | h
  · have := List.eq_of_mem_replicate h
    subst this
    decide
  · exact natDigits_isDigit n c h

theorem exists_two_digits (l : List Char) (hl : l.length = 2)
    (hd : ∀ c ∈ l, c.isDigit = true) :
    ∃ a b, l = [a, b] ∧ a.isDigit = true ∧ b.isDigit = true := by
  cases l with
  | nil => simp at hl
  | cons a t =>
    cases t with
    | nil => simp at hl
    | cons b t2 =>
      cases t2 with
      | nil => exact ⟨a, b, rfl, hd a (by simp), hd b (by simp)⟩
      | cons c t3 => simp at hl

theorem exists_four_digits (l : List Char) (hl : l.length = 4)
    (hd : ∀ c ∈ l, c.isDigit = true) :
    ∃ a b c d, l = [a, b, c, d] ∧ a.isDigit = true ∧ b.isDigit = true ∧
      c.isDigit = true ∧ d.isDigit = true := by
  cases l with
  | nil => simp at hl
  | cons a t =>
    cases t with
    | nil => simp at hl
    | cons b t2 =>
      cases t2 with
      | nil => simp at hl
      | cons c t3 =>
        cases t3 with
        | nil => simp at hl
        | cons d t4 =>
          cases t4 with
          | nil =>
            exact ⟨a, b, c, d, rfl, hd a (by simp), hd b (by simp), hd c (by simp),
              hd d (by simp)⟩
          | cons e t5 => simp at hl

theorem exists_six_digits (l : List Char) (hl : l.length = 6)
    (hd : ∀ c ∈ l, c.isDigit = true) :
    ∃ a b c d e f, l = [a, b, c, d, e, f] ∧ a.isDigit = true ∧ b.isDigit = true ∧
      c.isDigit = true ∧ d.isDigit = true ∧ e.isDigit = true ∧ f.isDigit = true := by
  cases l with
  | nil => simp at hl
  | cons a t =>
    cases t with
    | nil => simp at hl
    | cons b t2 =>
      cases t2 with
      | nil => simp at hl
      | cons c t3 =>
        cases t3 with
        | nil => simp at hl
        | cons d t4 =>
          cases t4 with
          | nil => simp at hl
          | cons e t5 =>
            cases t5 with
            | nil => simp at hl
            | cons f t6 =>
              cases t6 with
              | nil =>
                exact ⟨a, b, c, d, e, f, rfl, hd a (by simp), hd b (by simp),
                  hd c (by simp), hd d (by simp), hd e (by simp), hd f (by simp)⟩
              | cons g t7 => simp at hl

theorem offset_part_isOptOffset (off : Option Int)
    (hoff : ∀ o, off = some o → o.natAbs < 6000) :
    isOptOffset (offsetChars off) = true := by
  cases off with
  | none => rfl
  | some o =>
    have hb : o.natAbs < 6000 := hoff o rfl
    rw [offsetChars]
    have hh : o.natAbs / 60 < 100 := by
      rw [Nat.div_lt_iff_lt_mul (by omega : 0 < 60)]
      omega
    have hm : o.natAbs % 60 < 100 := lt_of_lt_of_le (Nat.mod_lt _ (by omega)) (by omega)
    obtain ⟨a, b, hab, ha, hb'⟩ :=
      exists_two_digits (padNat 2 (o.natAbs / 60))
        (padNat_length 2 _ (natDigits_length_le 2 _ (by norm_num; omega) (by omega)))
        (padNat_isDigit 2 _)
    obtain ⟨c, e, hce, hc, he⟩ :=
      exists_two_digits (padNat 2 (o.natAbs % 60))
        (padNat_length 2 _ (natDigits_length_le 2 _ (by norm_num; omega) (by omega)))
        (padNat_isDigit 2 _)
    rw [hab, hce]
    by_cases hs : (0 : Int) ≤ o
    · simp [isOptOffset, isOffsetTail, if_pos hs, ha, hb', hc, he]
    · simp [isOptOffset, isOffsetTail, if_neg hs, ha, hb', hc, he]

theorem offsetChars_shape (off : Option Int) :
    off = none ∨ ∃ sg rest, offsetChars off = sg :: rest ∧ (sg = '+' ∨ sg = '-') := by
  cases off with
  | none => exact Or.inl rfl
  | some o =>
    refine Or.inr ⟨if 0 ≤ o then '+' else '-', _, rfl, ?_⟩
    by_cases hs : (0 : Int) ≤ o
    · exact Or.inl (if_pos hs)
    · exact Or.inr (if_neg hs)

theorem suffix_isTimeSuffix (us : Nat) (off : Option Int) (hus : us < 1000000)
    (hoff : ∀ o, off = some o → o.natAbs < 6000) :
    isTimeSuffix (fracChars us ++ offsetChars off) = true := by
  have hopt := offset_part_isOptOffset off hoff
  by_cases hus0 : us = 0
  · rw [fracChars, if_pos hus0, List.nil_append]
    rcases offsetChars_shape off with hsh | ⟨sg, rest, hsh, hsg⟩
    · rw [hsh]; rfl
    · rw [hsh] at hopt ⊢
      rcases hsg with rfl | rfl
      · simpa [isTimeSuffix] using hopt
      · simpa [isTimeSuffix] using hopt
  · rw [fracChars, if_neg hus0]
    obtain ⟨a, b, c, d, e, f, habc, ha, hb, hc, hd, he, hf⟩ :=
      exists_six_digits (padNat 6 us)
        (padNat_length 6 _ (natDigits_length_le 6 _ (by norm_num; omega) (by omega)))
        (padNat_isDigit 6 _)
    rw [habc]
    simp [isTimeSuffix, ha, hb, hc, hd, he, hf, hopt]

theorem isoformat_canonical (d : Datetime) (hy : d.year < 10000) (hmo : d.month < 100)
    (hd : d.day < 100) (hh : d.hour < 100) (hmi : d.minute < 100) (hs : d.second < 100)
    (hus : d.microsecond < 1000000)
    (hoff : ∀ o, d.offsetMinutes = some o → o.natAbs < 6000) :
    isCanonicalISO8601 d.isoformat = true := by
  have hy' : (natDigits d.year).length ≤ 4 :=
    natDigits_length_le 4 d.year (by norm_num; omega) (by omega)
  have hmo' : (natDigits d.month).length ≤ 2 :=
    natDigits_length_le 2 d.month (by norm_num; omega) (by omega)
  have hd' : (natDigits d.day).length ≤ 2 :=
    natDigits_length_le 2 d.day (by norm_num; omega) (by omega)
  have hh' : (natDigits d.hour).length ≤ 2 :=
    natDigits_length_le 2 d.hour (by norm_num; omega) (by omega)
  have hmi' : (natDigits d.minute).length ≤ 2 :=
    natDigits_length_le 2 d.minute (by norm_num; omega) (by omega)
  have hs' : (natDigits d.second).length ≤ 2 :=
    natDigits_length_le 2 d.second (by norm_num; omega) (by omega)
  obtain ⟨y1, y2, y3, y4, hyeq, hy1, hy2, hy3, hy4⟩ :=
    exists_four_digits (padNat 4 d.year) (padNat_length 4 d.year hy') (padNat_isDigit 4 d.year)
  obtain ⟨m1, m2, hmeq, hm1, hm2⟩ :=
    exists_two_digits (padNat 2 d.month) (padNat_length 2 d.month hmo')
      (padNat_isDigit 2 d.month)
  obtain ⟨d1, d2, hdeq, hd1, hd2⟩ :=
    exists_two_digits (padNat 2 d.day) (padNat_length 2 d.day hd') (padNat_isDigit 2 d.day)
  obtain ⟨h1, h2, hheq, hh1, hh2⟩ :=
    exists_two_digits (padNat 2 d.hour) (padNat_length 2 d.hour hh') (padNat_isDigit 2 d.hour)
  obtain ⟨n1, n2, hneq, hn1, hn2⟩ :=
    exists_two_digits (padNat 2 d.minute) (padNat_length 2 d.minute hmi')
      (padNat_isDigit 2 d.minute)
  obtain ⟨s1, s2, hseq, hs1, hs2⟩ :=
    exists_two_digits (padNat 2 d.second) (padNat_length 2 d.second hs')
      (padNat_isDigit 2 d.second)
  have hsuf := suffix_isTimeSuffix d.microsecond d.offsetMinutes hus hoff
  rw [Datetime.isoformat, hyeq, hmeq, hdeq, hheq, hneq, hseq]
  simp only [List.cons_append, List.nil_append, List.append_assoc]
  simp [isCanonicalISO8601, hy1, hy2, hy3, hy4, hm1, hm2, hd1, hd2, hh1, hh2, hn1, hn2,
    hs1, hs2, hsuf]


/-- C4 (amended): every volume of the `available`-filtered listing yields
one output record, unmodified in identity (each record appears, and the
identifier column of the output equals, position by position, that of the
listing); the record's creation timestamp is the datetime's canonical
ISO-8601 `isoformat` — including its fractional-second part and UTC offset
— when the provider returned a (component-bounded, possibly
timezone-aware) datetime, the empty string when the value is absent, and
the `str` of the raw value otherwise. -/
theorem ebs_records_preserved (V : List Volume) (region : String) (v : Volume)
    (d : Datetime) (hv : v ∈ V) (hy : d.year < 10000) (hmo : d.month < 100)
    (hd : d.day < 100) (hh : d.hour < 100) (hmi : d.minute < 100) (hs : d.second < 100)
    (hus : d.microsecond < 1000000)
    (hoff : ∀ o, d.offsetMinutes = some o → o.natAbs < 6000) :
    toUnattachedEBSResult region v ∈ find_unattached_ebs_volumes V region ∧
    (find_unattached_ebs_volumes V region).length = V.length ∧
    (find_unattached_ebs_volumes V region).map (fun r => r.volume_id) =
      V.map (fun w => w.VolumeId.getD "") ∧
    (toUnattachedEBSResult region { v with CreateTime := .dt d }).create_time =
      d.isoformat ∧
    isCanonicalISO8601
      (toUnattachedEBSResult region { v with CreateTime := .dt d }).create_time = true ∧
    (toUnattachedEBSResult region { v with CreateTime := .absent }).create_time = "" ∧
    (∀ s, (toUnattachedEBSResult region { v with CreateTime := .raw s }).create_time = s) :=
  ⟨List.mem_map_of_mem _ hv, by simp [find_unattached_ebs_volumes],
    by simp only [find_unattached_ebs_volumes, List.map_map]; rfl, rfl,
    isoformat_canonical d hy hmo hd hh hmi hs hus hoff, rfl, fun _ => rfl⟩

/-- Witness for C4's amended theorem at a one-volume listing and the
timezone-aware datetime 2021-03-04 05:06:07.123456+00:00. -/
theorem ebs_records_preserved_witness :
    toUnattachedEBSResult "us-east-1"
        { VolumeId := some "vol-1", Size := some 8, VolumeType := some "gp3",
          AvailabilityZone := some "us-east-1a", CreateTime := .absent } ∈
      find_unattached_ebs_volumes
        [ { VolumeId := some "vol-1", Size := some 8, VolumeType := some "gp3",
            AvailabilityZone := some "us-east-1a", CreateTime := .absent } ] "us-east-1" ∧
    (find_unattached_ebs_volumes
        [ { VolumeId := some "vol-1", Size := some 8, VolumeType := some "gp3",
            AvailabilityZone := some "us-east-1a", CreateTime := .absent } ]
        "us-east-1").length =
      ([ { VolumeId := some "vol-1", Size := some 8, VolumeType := some "gp3",
           AvailabilityZone := some "us-east-1a", CreateTime := .absent } ] :
        List Volume).length ∧
    (find_unattached_ebs_volumes
        [ { VolumeId := some "vol-1", Size := some 8, VolumeType := some "gp3",
            AvailabilityZone := some "us-east-1a", CreateTime := .absent } ]
        "us-east-1").map (fun r => r.volume_id) =
      ([ { VolumeId := some "vol-1", Size := some 8, VolumeType := some "gp3",
           AvailabilityZone := some "us-east-1a", CreateTime := .absent } ] :
        List Volume).map (fun w => w.VolumeId.getD "") ∧
    (toUnattachedEBSResult "us-east-1"
        ({ VolumeId := some "vol-1", Size := some 8, VolumeType := some "gp3",
            AvailabilityZone := some "us-east-1a",
            CreateTime := .dt ⟨2021, 3, 4, 5, 6, 7, 123456, some 0⟩ } : Volume)).create_time =
      (Datetime.mk 2021 3 4 5 6 7 123456 (some 0)).isoformat ∧
    isCanonicalISO8601
      (toUnattachedEBSResult "us-east-1"
        ({ VolumeId := some "vol-1", Size := some 8, VolumeType := some "gp3",
            AvailabilityZone := some "us-east-1a",
            CreateTime := .dt ⟨2021, 3, 4, 5, 6, 7, 123456, some 0⟩ } : Volume)).create_time =
      true ∧
    (toUnattachedEBSResult "us-east-1"
        ({ VolumeId := some "vol-1", Size := some 8, VolumeType := some "gp3",
            AvailabilityZone := some "us-east-1a",
            CreateTime := .absent } : Volume)).create_time = "" ∧
    (∀ s, (toUnattachedEBSResult "us-east-1"
        ({ VolumeId := some "vol-1", Size := some 8, VolumeType := some "gp3",
            AvailabilityZone := some "us-east-1a",
            CreateTime := .raw s } : Volume)).create_time = s) :=
  ebs_records_preserved
    [ { VolumeId := some "vol-1", Size := some 8, VolumeType := some "gp3",
        AvailabilityZone := some "us-east-1a", CreateTime := .absent } ] "us-east-1"
    { VolumeId := some "vol-1", Size := some 8, VolumeType := some "gp3",
      AvailabilityZone := some "us-east-1a", CreateTime := .absent }
    ⟨2021, 3, 4, 5, 6, 7, 123456, some 0⟩ (by decide) (by decide) (by decide) (by decide)
    (by decide) (by decide) (by decide) (by decide)
    (by intro o ho; injection ho with h; subst h; decide)

/-- C4 as stated is too strong: when the provider's `CreateTime` is not a
datetime, the code emits `str(raw)`, which need not be ISO-8601 — a raw
value `"last tuesday"` flows through verbatim, neither canonical ISO-8601
nor empty. -/
theorem ebs_create_time_not_iso_counterexample :
    (find_unattached_ebs_volumes
      [ { VolumeId := some "vol-1", Size := some 8, VolumeType := some "gp3",
          AvailabilityZone := some "us-east-1a", CreateTime := .raw "last tuesday" } ]
      "us-east-1").map (fun r => r.create_time) = ["last tuesday"] ∧
    isCanonicalISO8601 "last tuesday" = false ∧ "last tuesday" ≠ "" := by
  decide

end AwsOrphans
